import Mathlib

/-!
Verification of the MatrixCrawler/ansible repository fragment.

Two components are embedded:
* the InfluxDB run-telemetry callback plugin
  (src/lib/ansible/plugins/callback/influxdb.py), and
* the Sophos UTM aaa/group module
  (src/lib/ansible/modules/web_infrastructure/sophos_utm/utm_aaa_group.py),
  whose reconciliation engine (ansible.module_utils.utm_utils) is not part of
  the sources and is modelled from the specification where needed.

Python dictionaries are embedded as association lists with insert-or-replace
update and first-match lookup; exceptions are embedded with Except; the wall
clock read by time.time() is threaded as an explicit argument.
-/

/-- Python dict lookup `d[k]` as an Option: first binding for the key. -/
def dictGet? {V : Type} (d : List (String × V)) (k : String) : Option V :=
  match d with
  | [] => none
  | (k1, v1) :: rest => if k1 = k then some v1 else dictGet? rest k

/-- Python dict assignment `d[k] = v`: replace the existing binding or append. -/
def dictSet {V : Type} (d : List (String × V)) (k : String) (v : V) : List (String × V) :=
  match d with
  | [] => [(k, v)]
  | (k1, v1) :: rest => if k1 = k then (k, v) :: rest else (k1, v1) :: dictSet rest k v

/-- Python exceptions that the embedded callback code can raise. -/
inductive PyError : Type
  | keyError (key : String)
  | attributeError (attr : String)
deriving DecidableEq, Repr

/-- The per-host record stored by `_create_data_point`:
`dict(end_time=..., state=...)` (influxdb.py lines 227-232). -/
structure HostDataPoint : Type where
  end_time : Int
  state : String
deriving DecidableEq, Repr

/-- The `self.influx` configuration dict after `set_options` ran
(influxdb.py lines 171-180). `host`, `database`, `username`, `password`
are stored exactly as `get_option` returned them (None is possible);
the remaining keys are filled through Python `or` with a default. -/
structure InfluxConf : Type where
  host : Option String
  port : Int
  database : Option String
  username : Option String
  password : Option String
  ssl : Bool
  verify_ssl : Bool
  timeout : Int
  retries : Int
  measurement : String
deriving DecidableEq, Repr

/-- Mutable attributes of the CallbackModule instance
(influxdb.py lines 135-145). -/
structure AggState : Type where
  play : String
  start_time : List (String × Int)
  all_end_times : List (String × List (String × HostDataPoint))
  influx : InfluxConf
  disabled : Bool
deriving DecidableEq, Repr

/-- The raw values `get_option` returns for each recognized option:
none models Python None (option unset). -/
structure RawOptions : Type where
  influx_host : Option String
  influx_port : Option Int
  influx_database : Option String
  influx_username : Option String
  influx_password : Option String
  influx_use_ssl : Option Bool
  influx_verify_ssl : Option Bool
  influx_timeout : Option Int
  influx_retries : Option Int
  influx_measurement_name : Option String
deriving DecidableEq, Repr

/-- Python `x or d` for an optional int: None and 0 are falsy. -/
def pyOrInt (v : Option Int) (d : Int) : Int :=
  match v with
  | none => d
  | some x => if x = 0 then d else x

/-- Python `x or d` for an optional bool: None and False are falsy. -/
def pyOrBool (v : Option Bool) (d : Bool) : Bool :=
  match v with
  | none => d
  | some x => if x then x else d

/-- Python `x or d` for an optional string: None and the empty string are falsy. -/
def pyOrStr (v : Option String) (d : String) : String :=
  match v with
  | none => d
  | some x => if x = "" then d else x

/-- The warning issued when influx_host resolves to None (influxdb.py lines 183-184). -/
def hostWarning : String :=
  "No Influx Host provided. Can be provided with the `INFLUX_HOST` environment variable or in the ini"

/-- The warning issued when influx_database resolves to None (influxdb.py lines 188-190). -/
def databaseWarning : String :=
  "No Influx database provided. Can be provided with the `INFLUX_DATABASE` environment variable or in the ini"

/-- `CallbackModule.set_options` (influxdb.py lines 169-193): fill `self.influx`
from the options, warn and set `self.disabled = True` when `influx_host` is
None, and again independently when `influx_database` is None. Returns the
updated state together with the list of warnings emitted, in order. -/
def set_options (opts : RawOptions) (s : AggState) : AggState × List String :=
  let conf : InfluxConf :=
    { host := opts.influx_host
      port := pyOrInt opts.influx_port 8086
      database := opts.influx_database
      username := opts.influx_username
      password := opts.influx_password
      ssl := pyOrBool opts.influx_use_ssl false
      verify_ssl := pyOrBool opts.influx_verify_ssl true
      timeout := pyOrInt opts.influx_timeout 5
      retries := pyOrInt opts.influx_retries 3
      measurement := pyOrStr opts.influx_measurement_name "ansible_plays" }
  let warnings1 : List String := if conf.host = none then [hostWarning] else []
  let disabled1 : Bool := if conf.host = none then true else s.disabled
  let warnings2 : List String :=
    if conf.database = none then warnings1 ++ [databaseWarning] else warnings1
  let disabled2 : Bool := if conf.database = none then true else disabled1
  ({ s with influx := conf, disabled := disabled2 }, warnings2)

/-- `CallbackModule.v2_playbook_on_play_start` (influxdb.py lines 195-198):
record the play name, its start timestamp, and reset its per-host map.
`now` is the value `time_in_milliseconds()` returned. -/
def v2_playbook_on_play_start (playName : String) (now : Int) (s : AggState) : AggState :=
  { s with
    play := playName
    start_time := dictSet s.start_time playName now
    all_end_times := dictSet s.all_end_times playName [] }

/-- `CallbackModule._create_data_point` (influxdb.py lines 227-232):
`self.all_end_times[self.play][str(hostname)] = dict(end_time=now, state=state)`.
The outer subscript raises KeyError when the current play has no entry. -/
def _create_data_point (hostname st : String) (now : Int) (s : AggState) :
    Except PyError AggState :=
  match dictGet? s.all_end_times s.play with
  | none => Except.error (PyError.keyError s.play)
  | some hosts =>
      Except.ok
        { s with
          all_end_times :=
            dictSet s.all_end_times s.play (dictSet hosts hostname ⟨now, st⟩) }

/-- The six per-host outcome events the plugin handles. -/
inductive HostEvent : Type
  | runner_ok
  | runner_async_failed
  | runner_failed
  | runner_skipped
  | runner_unreachable
  | runner_async_ok
deriving DecidableEq, Repr

/-- Dispatch of the six `v2_runner_on_*` handlers (influxdb.py lines 234-258):
each calls `_create_data_point` with its literal state string. -/
def runnerHandler (ev : HostEvent) (host : String) (now : Int) (s : AggState) :
    Except PyError AggState :=
  match ev with
  | HostEvent.runner_ok => _create_data_point host "ok" now s
  | HostEvent.runner_async_failed => _create_data_point host "failed" now s
  | HostEvent.runner_failed => _create_data_point host "failed" now s
  | HostEvent.runner_skipped => _create_data_point host "ok" now s
  | HostEvent.runner_unreachable => _create_data_point host "unreachable" now s
  | HostEvent.runner_async_ok => _create_data_point host "ok" now s

/-- One emitted data point (the dict built in influxdb.py lines 207-218). -/
structure TelemetryPoint : Type where
  measurement : String
  tag_host : String
  tag_play : String
  time : String
  duration : Int
  state : String
deriving DecidableEq, Repr

/-- The inner loop of `v2_playbook_on_stats` over one play's hosts
(influxdb.py lines 204-219): `duration = end_time - self.start_time[play]`;
the subscript raises KeyError if the play has no recorded start time. -/
def buildPlayPoints (timeStr meas play : String) (startTimes : List (String × Int))
    (hosts : List (String × HostDataPoint)) : Except PyError (List TelemetryPoint) :=
  match hosts with
  | [] => Except.ok []
  | (host, hdp) :: rest =>
      match dictGet? startTimes play with
      | none => Except.error (PyError.keyError play)
      | some t0 =>
          match buildPlayPoints timeStr meas play startTimes rest with
          | Except.error e => Except.error e
          | Except.ok pts =>
              Except.ok (⟨meas, host, play, timeStr, hdp.end_time - t0, hdp.state⟩ :: pts)

/-- The outer loop of `v2_playbook_on_stats` over `self.all_end_times`
(influxdb.py lines 203-219), accumulating `data_points`. -/
def buildDataPoints (timeStr meas : String) (startTimes : List (String × Int))
    (allEndTimes : List (String × List (String × HostDataPoint))) :
    Except PyError (List TelemetryPoint) :=
  match allEndTimes with
  | [] => Except.ok []
  | (play, hosts) :: rest =>
      match buildPlayPoints timeStr meas play startTimes hosts with
      | Except.error e => Except.error e
      | Except.ok pts =>
          match buildDataPoints timeStr meas startTimes rest with
          | Except.error e => Except.error e
          | Except.ok pts2 => Except.ok (pts ++ pts2)

/-- The method names defined on CallbackModule in influxdb.py together with the
attributes of the CallbackBase/AnsiblePlugin base classes that its body refers
to. Python attribute resolution of `self.<name>` succeeds exactly for names in
this list; note that `_connect_to_influxdb` (line 147) is defined while
`connect_to_influxdb` is not, neither here nor on any base class. -/
def definedMethodNames : List String :=
  ["__init__", "_connect_to_influxdb", "set_options", "v2_playbook_on_play_start",
   "v2_playbook_on_stats", "time_in_milliseconds", "_create_data_point",
   "v2_runner_on_ok", "v2_runner_on_async_failed", "v2_runner_on_failed",
   "v2_runner_on_skipped", "v2_runner_on_unreachable", "v2_runner_on_async_ok",
   "get_option", "_display"]

/-- `CallbackModule.v2_playbook_on_stats` (influxdb.py lines 200-221): the very
first statement is `influxdb = self.connect_to_influxdb()`; attribute
resolution of that name fails (only `_connect_to_influxdb` exists), raising
AttributeError before the data-point loop runs. Were the attribute defined,
the handler would build the data points and batch-write them; the returned
list models the batch handed to `write_points`. `timeStr` is the value
`str(datetime.utcnow())` produced at line 213. -/
def v2_playbook_on_stats (timeStr : String) (s : AggState) :
    Except PyError (List TelemetryPoint) :=
  if definedMethodNames.contains "connect_to_influxdb" then
    buildDataPoints timeStr s.influx.measurement s.start_time s.all_end_times
  else
    Except.error (PyError.attributeError "connect_to_influxdb")

/-- The instance attributes set in `__init__` (influxdb.py lines 142-145),
with a configuration not yet resolved; `disabled` is False when the influxdb
library is importable. -/
def initState : AggState :=
  { play := ""
    start_time := []
    all_end_times := []
    influx :=
      { host := none, port := 0, database := none, username := none, password := none,
        ssl := false, verify_ssl := false, timeout := 0, retries := 0, measurement := "" }
    disabled := false }

/-! ## The aaa/group reconciler

`utm_aaa_group.py` declares the endpoint, the watched-field list and the
argument spec, then runs `UTM(module, endpoint, key_to_check_for_changes)
.execute()` inside a try/except that turns any exception into
`module.fail_json(msg=str(e))`. The UTM class itself lives in
`ansible.module_utils.utm_utils`, which is not among the sources, so the
reconciliation algorithm is modelled from the specification below. -/

/-- The endpoint declared in `utm_aaa_group.main` (line 185). -/
def endpoint : String := "aaa/group"

/-- `key_to_check_for_changes` declared in `utm_aaa_group.main` (lines 186-188):
the fixed watched-field list for the aaa/group object kind. -/
def key_to_check_for_changes : List String :=
  ["comment", "adirectory_groups", "adirectory_groups_sids", "backend_match", "dynamic",
   "edirectory_groups", "ipsec_dn", "ldap_attribute", "ldap_attribute_value", "members",
   "network", "radius_groups", "tacas_groups"]

/-- Attribute values carried by a desired or remote object: scalar strings or
lists of strings (the aaa/group fields are strings and string lists). -/
inductive AttrValue : Type
  | str (s : String)
  | list (xs : List String)
deriving DecidableEq, Repr

/-- The state intent of a DesiredObjectSpec. -/
inductive Intent : Type
  | present
  | absent
deriving DecidableEq, Repr

/-- A DesiredObjectSpec: the name (sole lookup key), the attribute fields, and
the state intent. -/
structure DesiredObjectSpec : Type where
  name : String
  fields : List (String × AttrValue)
  intent : Intent
deriving DecidableEq, Repr

/-- The remote store, keyed by object name (the store enforces name
uniqueness): name to the object's attribute fields. -/
abbrev Store : Type := List (String × List (String × AttrValue))

/-- Modelled from the spec: field-value equality for the ChangeSet comparison
(spec section 4.1, step 3) — value equality per field, with list-typed fields
compared as sets (order-insensitive). -/
def valueEq (a b : AttrValue) : Bool :=
  match a, b with
  | AttrValue.str x, AttrValue.str y => x = y
  | AttrValue.list xs, AttrValue.list ys =>
      xs.all (fun x => decide (x ∈ ys)) && ys.all (fun y => decide (y ∈ xs))
  | _, _ => false

/-- Modelled from the spec: the ChangeSet (spec section 3) — the subset of
watched attribute names whose desired value differs from the remote value.
A watched field absent from the desired spec expresses no preference and is
excluded; one present in the spec but absent remotely differs. -/
def changeSet (watched : List String) (specFields remoteFields : List (String × AttrValue)) :
    List String :=
  watched.filter (fun k =>
    match dictGet? specFields k, dictGet? remoteFields k with
    | some v, some w => ! valueEq v w
    | some _, none => true
    | none, _ => false)

/-- Modelled from the spec: `reconcile` (spec section 4.1) — the UTM.execute
algorithm, absent from the sources. Look up the object by name; branch on
(intent, existence): absent+exists deletes, absent+missing no-ops,
present+missing creates with the full field set, present+exists updates with
the full payload exactly when the ChangeSet over the watched fields is
nonempty. Returns the changed flag and the store after the write calls. -/
def reconcile (watched : List String) (ds : DesiredObjectSpec) (store : Store) :
    Bool × Store :=
  match dictGet? store ds.name with
  | none =>
      match ds.intent with
      | Intent.present => (true, dictSet store ds.name ds.fields)
      | Intent.absent => (false, store)
  | some remoteFields =>
      match ds.intent with
      | Intent.absent => (true, store.filter (fun kv => kv.1 ≠ ds.name))
      | Intent.present =>
          if (changeSet watched ds.fields remoteFields).isEmpty then (false, store)
          else (true, dictSet store ds.name ds.fields)

/-- The outcome the module reports to the caller: `exit_json` with a changed
flag, or `fail_json` with a message. -/
inductive ModuleResult : Type
  | exited (changed : Bool)
  | failed (msg : String)
deriving DecidableEq, Repr

/-- What one invocation of `UTM(...).execute()` does, abstracted: it either
returns normally having reported a changed flag, or raises an exception whose
`str` is the carried message. -/
inductive ExecOutcome : Type
  | ok (changed : Bool)
  | raised (msg : String)
deriving DecidableEq, Repr

/-- `utm_aaa_group.main` (lines 208-211): run `UTM(module, endpoint,
key_to_check_for_changes).execute()`; any exception `e` is caught and turned
into `module.fail_json(msg=str(e))` — nothing is recovered or discarded. -/
def utm_aaa_group_main (outcome : ExecOutcome) : ModuleResult :=
  match outcome with
  | ExecOutcome.ok changed => ModuleResult.exited changed
  | ExecOutcome.raised msg => ModuleResult.failed msg

/-! ## Event dispatch, connection arguments, observers and concrete inputs -/

/-- The argument dict handed to `InfluxDBClient(**args)` by
`_connect_to_influxdb` (influxdb.py lines 152-167); `retries` is added only
when the influxdb library version tuple is at least ("4", "1", "0"). -/
structure InfluxClientArgs : Type where
  host : Option String
  port : Int
  username : Option String
  password : Option String
  database : Option String
  ssl : Bool
  verify_ssl : Bool
  timeout : Int
  retries : Option Int
deriving DecidableEq, Repr

/-- Python tuple `<` on tuples of strings: lexicographic, a proper prefix is
smaller. -/
def tupleLt : List String → List String → Bool
  | [], [] => false
  | [], _ :: _ => true
  | _ :: _, [] => false
  | a :: as, b :: bs => if a < b then true else if b < a then false else tupleLt as bs

/-- Python tuple `>=` on tuples of strings. -/
def tupleGe (x y : List String) : Bool := ! tupleLt x y

/-- `CallbackModule._connect_to_influxdb` (influxdb.py lines 147-167): the
arguments with which the client is constructed, from `self.influx` and the
influxdb library version split on dots. -/
def _connect_to_influxdb (conf : InfluxConf) (influxdb_version : List String) :
    InfluxClientArgs :=
  { host := conf.host
    port := conf.port
    username := conf.username
    password := conf.password
    database := conf.database
    ssl := conf.ssl
    verify_ssl := conf.verify_ssl
    timeout := conf.timeout
    retries := if tupleGe influxdb_version ["4", "1", "0"] then some conf.retries else none }

/-- The lifecycle events the plugin subscribes to. -/
inductive AggEvent : Type
  | options (opts : RawOptions)
  | play_start (name : String) (now : Int)
  | host_outcome (ev : HostEvent) (host : String) (now : Int)
  | run_end (timeStr : String)
deriving Repr

/-- The state after dispatching one event to the plugin: `set_options` updates
the configuration, `v2_playbook_on_play_start` the maps, a runner handler
records the host (an escaping KeyError leaves the instance unmutated), and
`v2_playbook_on_stats` reads the maps without mutating them. -/
def stepEvent (e : AggEvent) (s : AggState) : AggState :=
  match e with
  | AggEvent.options opts => (set_options opts s).1
  | AggEvent.play_start n t => v2_playbook_on_play_start n t s
  | AggEvent.host_outcome ev h t =>
      match runnerHandler ev h t s with
      | Except.ok s2 => s2
      | Except.error _ => s
  | AggEvent.run_end _ => s

/-- Observer: the outcome state recorded for `host` under `play` in the
accumulator. -/
def recordedState (s : AggState) (play host : String) : Option String :=
  match dictGet? s.all_end_times play with
  | none => none
  | some hosts => (dictGet? hosts host).map HostDataPoint.state

/-- The accumulator invariant: every play keyed in the end-times map has a
recorded start timestamp in the start-time map. -/
def accumInv (s : AggState) : Bool :=
  s.all_end_times.all (fun kv => (dictGet? s.start_time kv.1).isSome)

/-- A complete, valid option set (host and database provided). -/
def validOptions : RawOptions :=
  { influx_host := some "influx.example.com"
    influx_port := none
    influx_database := some "ansible"
    influx_username := some "user"
    influx_password := some "pw"
    influx_use_ssl := none
    influx_verify_ssl := none
    influx_timeout := none
    influx_retries := none
    influx_measurement_name := none }

/-- Options with both required keys unset (None). -/
def bothMissingOptions : RawOptions :=
  { influx_host := none
    influx_port := none
    influx_database := none
    influx_username := some "user"
    influx_password := some "pw"
    influx_use_ssl := none
    influx_verify_ssl := none
    influx_timeout := none
    influx_retries := none
    influx_measurement_name := none }

/-- Options whose host resolves to the empty string (empty, but not None). -/
def emptyHostOptions : RawOptions :=
  { influx_host := some ""
    influx_port := none
    influx_database := some "ansible"
    influx_username := some "user"
    influx_password := some "pw"
    influx_use_ssl := none
    influx_verify_ssl := none
    influx_timeout := none
    influx_retries := none
    influx_measurement_name := none }

/-- The state after a play named site-deploy started at t0 = 100 ms. -/
def startedState : AggState :=
  v2_playbook_on_play_start "site-deploy" 100 initState

/-- The state of the concrete run: options resolved, play-start("site-deploy")
at t0 = 100, host-outcome ok for web1 at t1 = 250. -/
def c1State : AggState :=
  stepEvent (AggEvent.host_outcome HostEvent.runner_ok "web1" 250)
    (stepEvent (AggEvent.play_start "site-deploy" 100)
      (stepEvent (AggEvent.options validOptions) initState))

/-- A desired aaa/group spec for group G1 with intent present. -/
def g1Spec : DesiredObjectSpec :=
  { name := "G1"
    fields := [("comment", AttrValue.str "c")]
    intent := Intent.present }

/-- A remote store already holding G1 exactly as desired. -/
def g1Store : Store := [("G1", [("comment", AttrValue.str "c")])]

/-! ## Helper lemmas -/

theorem dictGet_dictSet_self {V : Type} (d : List (String × V)) (k : String) (v : V) :
    dictGet? (dictSet d k v) k = some v := by
  induction d with
  | nil => simp [dictSet, dictGet?]
  | cons hd tl ih =>
      obtain ⟨k1, v1⟩ := hd
      by_cases h : k1 = k
      · simp [dictSet, h, dictGet?]
      · simp [dictSet, h, dictGet?, ih]

theorem dictGet_dictSet_ne {V : Type} (d : List (String × V)) (k kx : String) (v : V)
    (h : kx ≠ k) : dictGet? (dictSet d k v) kx = dictGet? d kx := by
  induction d with
  | nil => simp [dictSet, dictGet?, Ne.symm h]
  | cons hd tl ih =>
      obtain ⟨k1, v1⟩ := hd
      by_cases h1 : k1 = k
      · subst h1
        simp [dictSet, dictGet?, Ne.symm h]
      · simp [dictSet, h1, dictGet?, ih]

theorem mem_dictSet {V : Type} (d : List (String × V)) (k : String) (v : V) :
    ∀ kv ∈ dictSet d k v, kv.1 = k ∨ kv ∈ d := by
  induction d with
  | nil =>
      intro kv hkv
      simp [dictSet] at hkv
      left; rw [hkv]
  | cons hd tl ih =>
      obtain ⟨k1, v1⟩ := hd
      intro kv hkv
      by_cases h : k1 = k
      · rw [dictSet] at hkv
        simp [h] at hkv
        rcases hkv with hkv | hkv
        · left; rw [hkv]
        · right; exact List.mem_cons_of_mem _ hkv
      · rw [dictSet] at hkv
        simp only [if_neg h, List.mem_cons] at hkv
        rcases hkv with hkv | hkv
        · right; rw [hkv]; exact List.mem_cons_self _ _
        · rcases ih kv hkv with h2 | h2
          · left; exact h2
          · right; exact List.mem_cons_of_mem _ h2

theorem mem_of_dictGet {V : Type} (d : List (String × V)) (k : String) (v : V)
    (h : dictGet? d k = some v) : (k, v) ∈ d := by
  induction d with
  | nil => simp [dictGet?] at h
  | cons hd tl ih =>
      obtain ⟨k1, v1⟩ := hd
      by_cases h1 : k1 = k
      · subst h1
        simp [dictGet?] at h
        simp [h]
      · simp [dictGet?, h1] at h
        simp [ih h]

theorem valueEq_refl (v : AttrValue) : valueEq v v = true := by
  cases v with
  | str s => simp [valueEq]
  | list xs => simp [valueEq, List.all_eq_true]

theorem changeSet_self (watched : List String) (f : List (String × AttrValue)) :
    changeSet watched f f = [] := by
  rw [changeSet, List.filter_eq_nil_iff]
  intro k _
  rcases h : dictGet? f k with _ | v <;> simp [h, valueEq_refl]

/-! ## Claim theorems -/

/-- C2: for every run-end event, `v2_playbook_on_stats` raises an
AttributeError before any point is built or written: it invokes
`self.connect_to_influxdb()` while the only defined method is named
`_connect_to_influxdb`, so no batch write to the sink can ever succeed. -/
theorem stats_flush_always_raises_attribute_error :
    definedMethodNames.contains "connect_to_influxdb" = false ∧
    definedMethodNames.contains "_connect_to_influxdb" = true ∧
    ∀ (timeStr : String) (s : AggState),
      v2_playbook_on_stats timeStr s =
        Except.error (PyError.attributeError "connect_to_influxdb") := by
  refine ⟨by decide, by decide, ?_⟩
  intro timeStr s
  rfl

/-- C1: on the concrete run play-start("site-deploy") at t0 = 100,
host-outcome ok for web1 at t1 = 250, then run-end, the flush raises the
AttributeError of the misnamed connect call instead of emitting anything;
the data-point construction it never reaches would have produced exactly one
TelemetryPoint tagged host = web1, play = site-deploy with duration
t1 - t0 = 150, as the claim states. -/
theorem run_end_flush_raises_instead_of_emitting :
    v2_playbook_on_stats "2018-01-01 00:00:00" c1State =
      Except.error (PyError.attributeError "connect_to_influxdb") ∧
    buildDataPoints "2018-01-01 00:00:00" c1State.influx.measurement c1State.start_time
        c1State.all_end_times =
      Except.ok
        [{ measurement := "ansible_plays", tag_host := "web1", tag_play := "site-deploy",
           time := "2018-01-01 00:00:00", duration := 250 - 100, state := "ok" }] := by
  exact ⟨rfl, rfl⟩

/-- C4: a host-outcome event arriving when the current play has no entry in
the accumulator raises a KeyError (the code's consistency failure) from every
runner handler, and the instance state is left unmodified, so no
TelemetryPoint is ever produced for that event. -/
theorem host_outcome_unknown_play_raises (ev : HostEvent) (host : String) (now : Int)
    (s : AggState) (h : dictGet? s.all_end_times s.play = none) :
    runnerHandler ev host now s = Except.error (PyError.keyError s.play) ∧
    stepEvent (AggEvent.host_outcome ev host now) s = s := by
  have h1 : runnerHandler ev host now s = Except.error (PyError.keyError s.play) := by
    cases ev <;> simp [runnerHandler, _create_data_point, h]
  exact ⟨h1, by simp [stepEvent, h1]⟩

/-- Witness for C4: in the initial state no play has started, so an ok event
for web1 raises KeyError on the current play name and changes nothing. -/
theorem host_outcome_unknown_play_raises_witness :
    runnerHandler HostEvent.runner_ok "web1" 250 initState =
      Except.error (PyError.keyError initState.play) ∧
    stepEvent (AggEvent.host_outcome HostEvent.runner_ok "web1" 250) initState = initState :=
  host_outcome_unknown_play_raises HostEvent.runner_ok "web1" 250 initState rfl

/-- C6: for every configured value of influx_verify_ssl, including an
explicit False, `set_options` stores verify_ssl as True (Python
`get_option(...) or True`), so the client arguments built by
`_connect_to_influxdb` always carry verify_ssl = True and the option cannot
actually be disabled. -/
theorem verify_ssl_always_true (opts : RawOptions) (s : AggState) (ver : List String) :
    (set_options opts s).1.influx.verify_ssl = true ∧
    (_connect_to_influxdb (set_options opts s).1.influx ver).verify_ssl = true := by
  have h : pyOrBool opts.influx_verify_ssl true = true := by
    rcases opts.influx_verify_ssl with _ | b
    · rfl
    · cases b <;> rfl
  constructor
  · simp [set_options, h]
  · simp [_connect_to_influxdb, set_options, h]

/-- Counterexample for C5: with both required options unset the plugin emits
two warnings, not exactly one; and a host resolving to the empty string is
not treated as missing at all — the plugin stays enabled and warns zero
times. -/
theorem set_options_warning_count_counterexample :
    (set_options bothMissingOptions initState).2.length = 2 ∧
    (set_options bothMissingOptions initState).1.disabled = true ∧
    (set_options emptyHostOptions initState).1.disabled = false ∧
    (set_options emptyHostOptions initState).2.length = 0 := by
  exact ⟨rfl, rfl, rfl, rfl⟩

/-- C5 (amended): when influx_host or influx_database resolves to None
(unset), `set_options` disables the plugin for the rest of the run and emits
one warning per unset required option — so two warnings when both are unset;
an empty string does not count as unset. -/
theorem missing_required_option_disables_and_warns (opts : RawOptions) (s : AggState)
    (h : opts.influx_host = none ∨ opts.influx_database = none) :
    (set_options opts s).1.disabled = true ∧
    (set_options opts s).2.length =
      (if opts.influx_host = none then 1 else 0) +
        (if opts.influx_database = none then 1 else 0) := by
  rcases h with h | h
  · by_cases hd : opts.influx_database = none <;> simp [set_options, h, hd]
  · by_cases hh : opts.influx_host = none <;> simp [set_options, h, hh]

/-- Witness for C5's amended theorem: both required options unset disables
the plugin and yields one warning for each of the two options. -/
theorem missing_required_option_disables_and_warns_witness :
    (set_options bothMissingOptions initState).1.disabled = true ∧
    (set_options bothMissingOptions initState).2.length =
      (if bothMissingOptions.influx_host = none then 1 else 0) +
        (if bothMissingOptions.influx_database = none then 1 else 0) :=
  missing_required_option_disables_and_warns bothMissingOptions initState (Or.inl rfl)

/-- C7: whenever the current play is tracked, each per-host event records the
claimed outcome state for the host: ok and async-ok record "ok", failed and
async-failed record "failed", unreachable records "unreachable", and skipped
records "ok". -/
theorem runner_event_records_outcome_state (ev : HostEvent) (host : String) (now : Int)
    (s : AggState) (hosts : List (String × HostDataPoint))
    (h : dictGet? s.all_end_times s.play = some hosts) :
    recordedState (stepEvent (AggEvent.host_outcome ev host now) s) s.play host =
      some (match ev with
        | HostEvent.runner_ok => "ok"
        | HostEvent.runner_async_failed => "failed"
        | HostEvent.runner_failed => "failed"
        | HostEvent.runner_skipped => "ok"
        | HostEvent.runner_unreachable => "unreachable"
        | HostEvent.runner_async_ok => "ok") := by
  cases ev <;>
    simp [stepEvent, runnerHandler, _create_data_point, h, recordedState,
      dictGet_dictSet_self]

/-- Witness for C7: after play site-deploy starts, a skipped event for web1
records outcome state ok. -/
theorem runner_event_records_outcome_state_witness :
    recordedState
        (stepEvent (AggEvent.host_outcome HostEvent.runner_skipped "web1" 250) startedState)
        startedState.play "web1" = some "ok" :=
  runner_event_records_outcome_state HostEvent.runner_skipped "web1" 250 startedState [] rfl

/-- Helper: a successful `_create_data_point` presupposes the current play is
keyed in the end-times map and only rewrites that play's host map. -/
theorem create_data_point_ok_shape (host st : String) (now : Int) (s s2 : AggState)
    (h2 : _create_data_point host st now s = Except.ok s2) :
    ∃ hosts, dictGet? s.all_end_times s.play = some hosts ∧
      s2 = { s with
              all_end_times :=
                dictSet s.all_end_times s.play (dictSet hosts host ⟨now, st⟩) } := by
  rw [_create_data_point] at h2
  rcases hl : dictGet? s.all_end_times s.play with _ | hosts
  · rw [hl] at h2
    simp at h2
  · rw [hl] at h2
    simp only [Except.ok.injEq] at h2
    exact ⟨hosts, rfl, h2.symm⟩

/-- C8: the accumulator invariant — every play keyed in the end-times map has
a recorded start timestamp — holds initially and is preserved by every event
handler of the plugin. -/
theorem accumulator_invariant_preserved :
    accumInv initState = true ∧
    ∀ (e : AggEvent) (s : AggState), accumInv s = true → accumInv (stepEvent e s) = true := by
  refine ⟨rfl, ?_⟩
  intro e s h
  simp only [accumInv, List.all_eq_true] at h
  cases e with
  | options opts =>
      simp only [stepEvent, accumInv, List.all_eq_true]
      exact h
  | play_start n t =>
      simp only [stepEvent, accumInv, List.all_eq_true]
      intro kv hkv
      simp only [v2_playbook_on_play_start] at hkv ⊢
      by_cases h2 : kv.1 = n
      · rw [h2, dictGet_dictSet_self]
        rfl
      · rw [dictGet_dictSet_ne _ _ _ _ h2]
        rcases mem_dictSet _ _ _ kv hkv with h1 | h1
        · exact absurd h1 h2
        · exact h kv h1
  | host_outcome ev host now =>
      rcases hr : runnerHandler ev host now s with e1 | s2
      · simp only [stepEvent, hr, accumInv, List.all_eq_true]
        exact h
      · simp only [stepEvent, hr]
        have hcd : ∃ st : String, _create_data_point host st now s = Except.ok s2 := by
          cases ev <;> exact ⟨_, hr⟩
        rcases hcd with ⟨st, hcd⟩
        rcases create_data_point_ok_shape host st now s s2 hcd with ⟨hosts, hl, hs2⟩
        subst hs2
        simp only [accumInv, List.all_eq_true]
        intro kv hkv
        rcases mem_dictSet _ _ _ kv hkv with h1 | h1
        · rw [h1]
          exact h (s.play, hosts) (mem_of_dictGet _ _ _ hl)
        · exact h kv h1
  | run_end t =>
      simp only [stepEvent, accumInv, List.all_eq_true]
      exact h

/-- Witness for C8: the invariant holds in the initial state and after a
play-start event dispatched on it. -/
theorem accumulator_invariant_preserved_witness :
    accumInv (stepEvent (AggEvent.play_start "site-deploy" 100) initState) = true :=
  accumulator_invariant_preserved.2 (AggEvent.play_start "site-deploy" 100) initState rfl

/-- C9: `utm_aaa_group.main` wraps the reconciliation in a catch-all: every
exception raised by `UTM(...).execute()` becomes a task failure whose message
is the exception's own message, and a normal return is reported as-is —
nothing is recovered locally or discarded. -/
theorem reconciler_exception_surfaces_as_failure (msg : String) (c : Bool) :
    utm_aaa_group_main (ExecOutcome.raised msg) = ModuleResult.failed msg ∧
    utm_aaa_group_main (ExecOutcome.ok c) = ModuleResult.exited c :=
  ⟨rfl, rfl⟩

/-- C10: the watched-field list of the aaa/group kind consists of exactly the
thirteen claimed fields, the lookup key name is not among them, and every
ChangeSet computed over this list mentions only watched fields. -/
theorem watched_field_list_exact :
    key_to_check_for_changes =
      ["comment", "adirectory_groups", "adirectory_groups_sids", "backend_match", "dynamic",
       "edirectory_groups", "ipsec_dn", "ldap_attribute", "ldap_attribute_value", "members",
       "network", "radius_groups", "tacas_groups"] ∧
    key_to_check_for_changes.length = 13 ∧
    "name" ∉ key_to_check_for_changes ∧
    ∀ sf rf : List (String × AttrValue),
      (changeSet key_to_check_for_changes sf rf).all
        (fun k => decide (k ∈ key_to_check_for_changes)) = true := by
  refine ⟨rfl, rfl, by decide, ?_⟩
  intro sf rf
  rw [List.all_eq_true]
  intro k hk
  rw [changeSet] at hk
  simpa using List.mem_of_mem_filter hk

/-- Counterexample for C3: reconciling G1 with intent present against a store
that already matches the desired fields returns changed = false on the very
first invocation, refuting the claim that the first of two identical calls
always returns changed = true. -/
theorem reconcile_first_call_not_always_changed :
    (reconcile key_to_check_for_changes g1Spec g1Store).1 = false := by
  rfl

/-- C3 (amended): for every DesiredObjectSpec with intent present, the second
of two successive reconcile invocations with the identical spec returns
changed = false, and the first returns changed = true exactly when the
object is initially absent from the store or some watched field differs. -/
theorem reconcile_second_call_never_changed (watched : List String) (ds : DesiredObjectSpec)
    (store : Store) (h : ds.intent = Intent.present) :
    (reconcile watched ds (reconcile watched ds store).2).1 = false ∧
    ((reconcile watched ds store).1 = true ↔
      dictGet? store ds.name = none ∨
        ∃ rf, dictGet? store ds.name = some rf ∧
          (changeSet watched ds.fields rf).isEmpty = false) := by
  rcases hl : dictGet? store ds.name with _ | rf
  · refine ⟨?_, ?_⟩
    · have h1 : (reconcile watched ds store).2 = dictSet store ds.name ds.fields := by
        simp [reconcile, hl, h]
      rw [h1]
      simp [reconcile, dictGet_dictSet_self, h, changeSet_self]
    · simp [reconcile, hl, h]
  · refine ⟨?_, ?_⟩
    · cases hcs : (changeSet watched ds.fields rf).isEmpty with
      | true =>
          have h1 : (reconcile watched ds store).2 = store := by
            simp [reconcile, hl, h, hcs]
          rw [h1]
          simp [reconcile, hl, h, hcs]
      | false =>
          have h1 : (reconcile watched ds store).2 = dictSet store ds.name ds.fields := by
            simp [reconcile, hl, h, hcs]
          rw [h1]
          simp [reconcile, dictGet_dictSet_self, h, changeSet_self]
    · cases hcs : (changeSet watched ds.fields rf).isEmpty with
      | true =>
          simp [reconcile, hl, h, hcs]
          exact List.isEmpty_iff.mp hcs
      | false =>
          simp [reconcile, hl, h, hcs]
          intro hnil
          rw [hnil] at hcs
          simp at hcs

/-- Witness for C3's amended theorem: reconciling G1 twice against the
already-converged store yields changed = false on the second call. -/
theorem reconcile_second_call_never_changed_witness :
    (reconcile key_to_check_for_changes g1Spec
        (reconcile key_to_check_for_changes g1Spec g1Store).2).1 = false :=
  (reconcile_second_call_never_changed key_to_check_for_changes g1Spec g1Store rfl).1
